import Mathlib

/-!
Verification of the DreamScreen Home Assistant integration (`__init__.py`).

The integration is a service dispatcher plus an entity adapter: five named
services carry validated parameters that are written onto attributes of
external device handles, and the adapter projects a device handle's live
attributes into the platform entity model (name, state, state attributes).

The embedding below models the device handle as a record of its mutable
attributes, the adapter as the `DreamScreenEntity` class of the source, and a
service invocation as validation (the voluptuous schemas of the source)
followed by the dispatcher `async_handle_dreamscreen_services`.
-/

namespace DreamScreen

/-- Concrete pydreamscreen device classes.  The source checks
`isinstance(self.device, (pydreamscreen.DreamScreenHD, pydreamscreen.DreamScreen4K))`;
`sideKick` stands for the remaining non-HDMI-capable variant. -/
inductive DeviceType where
  | hd
  | fourK
  | sideKick
  deriving DecidableEq, Repr

/-- The external device handle: a record of the mutable attributes the
integration reads and writes (`mode`, `brightness`, `hdmi_input`, the three
HDMI input names, `ambient_scene`, `ambient_color` as raw bytes, group
name/number, active channel count, advertised `name`), plus the concrete
variant of the handle (its Python class). -/
structure Device where
  variant : DeviceType
  name : String
  group_name : String
  group_number : Int
  mode : Int
  brightness : Int
  ambient_scene : Int
  ambient_color : List Nat
  hdmi_input : Int
  hdmi_input_1_name : String
  hdmi_input_2_name : String
  hdmi_input_3_name : String
  hdmi_active_channels : Int
  deriving DecidableEq, Repr

/-- Hex digit test for the character class `[0-9a-fA-F]` of the source's
color regex (codes 48–57 are `0`–`9`, 97–102 are `a`–`f`, 65–70 are `A`–`F`). -/
def isHexDigit (c : Char) : Bool :=
  (48 ≤ c.toNat && c.toNat ≤ 57) ||
  (97 ≤ c.toNat && c.toNat ≤ 102) ||
  (65 ≤ c.toNat && c.toNat ≤ 70)

/-- The color validation rule `vol.Match(r'^#(?:[0-9a-fA-F]{3}){1,2}$')` of
`SERVICE_AMBIENT_COLOR_SCHEMA`, under Python `re` semantics: the pattern is
anchored at both ends, and `$` (without `re.MULTILINE`) also matches just
before a newline at the very end of the string. -/
def colorMatches (s : String) : Bool :=
  let cs := if s.data.getLast? = some (Char.ofNat 10) then s.data.dropLast else s.data
  match cs with
  | '#' :: rest => (rest.length == 3 || rest.length == 6) && rest.all isHexDigit
  | _ => false

/-- The numeric value of one hex digit character, `none` on any other
character (codes as in `isHexDigit`). -/
def hexDigitVal (c : Char) : Option Nat :=
  if 48 ≤ c.toNat && c.toNat ≤ 57 then some (c.toNat - 48)
  else if 97 ≤ c.toNat && c.toNat ≤ 102 then some (c.toNat - 97 + 10)
  else if 65 ≤ c.toNat && c.toNat ≤ 70 then some (c.toNat - 65 + 10)
  else none

/-- Decode a run of hex digit characters, two per byte, into the byte values;
`none` when a character is not a hex digit or the run has odd length. -/
def parseHexPairs : List Char → Option (List Nat)
  | [] => some []
  | [_] => none
  | c1 :: c2 :: rest => do
    let hi ← hexDigitVal c1
    let lo ← hexDigitVal c2
    let bs ← parseHexPairs rest
    pure ((hi * 16 + lo) :: bs)

/-- Decode the digit run of a color string into bytes: the 3-digit short
form expands each digit into a doubled-digit byte (the standard short-hex
expansion, `abc` -> `aa bb cc`), any other run decodes pairwise. -/
def decodeColorDigits : List Char → Option (List Nat)
  | [c1, c2, c3] => do
    let v1 ← hexDigitVal c1
    let v2 ← hexDigitVal c2
    let v3 ← hexDigitVal c3
    pure [v1 * 16 + v1, v2 * 16 + v2, v3 * 16 + v3]
  | cs => parseHexPairs cs

/-- Modelled from the spec: the `ambient_color` property setter of the
pydreamscreen device handle belongs to the external device-control library and
is not part of this repository's source.  The spec says the library holds
"ambient color as raw bytes" as a writable per-device property (sections 3
and 6), the dispatcher writes the validated `#`-prefixed hex string to it,
and section 8 asserts that for every valid match of the color pattern — the
3-digit short form included — the snapshot afterwards shows the input
normalized to an uppercase 6-digit `#RRGGBB`.  The setter is therefore
modelled as decoding the digits after the leading `#` into bytes, with the
3-digit short form expanded digit-by-digit (the standard short-hex expansion)
and the 6-digit form decoded pairwise. -/
def deviceColorOfString (s : String) : Option (List Nat) :=
  match s.data with
  | '#' :: rest => decodeColorDigits rest
  | cs => decodeColorDigits cs

/-- Uppercase hex digit character for a value below 16 (as produced by
Python's `bytes.hex().upper()`): codes 48–57 are `0`–`9`, 65–70 are `A`–`F`. -/
def hexDigitUpper (n : Nat) : Char :=
  if n < 10 then Char.ofNat (48 + n) else Char.ofNat (65 + (n - 10))

/-- Two-digit uppercase hex rendering of one byte. -/
def byteHexUpper (b : Nat) : String :=
  String.mk [hexDigitUpper (b / 16 % 16), hexDigitUpper (b % 16)]

/-- `bytes.hex().upper()` of the source's ambient color formatting: every
byte as two uppercase hex digits, concatenated. -/
def bytesHexUpper : List Nat → String
  | [] => ""
  | b :: bs => byteHexUpper b ++ bytesHexUpper bs

/-- The five registered services (keys of `SERVICE_TO_ATTRIBUTE`). -/
inductive ServiceName where
  | set_mode
  | set_hdmi_source
  | set_brightness
  | set_ambient_scene
  | set_ambient_color
  deriving DecidableEq, Repr

/-- A service parameter value: the four numeric services carry an integer
(after `vol.Coerce(int)`), the color service carries a string. -/
inductive ParamValue where
  | int (n : Int)
  | str (s : String)
  deriving DecidableEq, Repr

/-- The per-service validation rules of the voluptuous schemas
(`SERVICE_MODE_SCHEMA` … `SERVICE_AMBIENT_COLOR_SCHEMA`): `mode` in 0–3,
`source` in 0–2, `brightness` in 0–100, `scene` in 0–8, `color` matching the
hex color pattern.  A value of the wrong shape for the service fails. -/
def validateParam : ServiceName → ParamValue → Bool
  | .set_mode, .int n => decide (0 ≤ n ∧ n ≤ 3)
  | .set_hdmi_source, .int n => decide (0 ≤ n ∧ n ≤ 2)
  | .set_brightness, .int n => decide (0 ≤ n ∧ n ≤ 100)
  | .set_ambient_scene, .int n => decide (0 ≤ n ∧ n ≤ 8)
  | .set_ambient_color, .str s => colorMatches s
  | _, _ => false

/-- The attribute name each service writes (`SERVICE_TO_ATTRIBUTE`'s
`attribute` entries). -/
def serviceAttributeName : ServiceName → String
  | .set_mode => "mode"
  | .set_hdmi_source => "hdmi_input"
  | .set_brightness => "brightness"
  | .set_ambient_scene => "ambient_scene"
  | .set_ambient_color => "ambient_color"

/-- `setattr(entity.device, attribute, attribute_value)` of the dispatcher:
writes the parameter value onto the one device attribute named in
`SERVICE_TO_ATTRIBUTE` for the service.  There is no capability check: the
write happens for every device variant.  For `ambient_color` the external
setter decodes the hex string (`deviceColorOfString`); the other four services
store the integer directly.  The wrong-shape cases are unreachable behind
validation and leave the device unchanged. -/
def setDeviceAttribute (d : Device) : ServiceName → ParamValue → Device
  | .set_mode, .int n => { d with mode := n }
  | .set_hdmi_source, .int n => { d with hdmi_input := n }
  | .set_brightness, .int n => { d with brightness := n }
  | .set_ambient_scene, .int n => { d with ambient_scene := n }
  | .set_ambient_color, .str s =>
    match deviceColorOfString s with
    | some bs => { d with ambient_color := bs }
    | none => d
  | _, _ => d

/-- The `isinstance(self.device, (DreamScreenHD, DreamScreen4K))` capability
test of `state_attributes`. -/
def hdmiCapable (d : Device) : Bool :=
  d.variant == .hd || d.variant == .fourK

/-- A value in the entity's state-attribute dictionary: a string, an integer,
or Python `None` (as assigned to `selected_hdmi` when no branch matches). -/
inductive AttrValue where
  | s (v : String)
  | i (v : Int)
  | null
  deriving DecidableEq, Repr

/-- Modelled from the spec: `generate_entity_id` is a helper of the host
platform (`homeassistant.helpers.entity`), not part of this repository's
source.  Per the spec (sections 3 and 4.2) the identifier is "a fixed domain
prefix joined with a normalized form of the device's name", "disambiguated
against the supplied set (collision-avoided by suffixing)".  Normalization is
modelled as lower-casing with every non-alphanumeric character replaced by an
underscore. -/
def slugify (s : String) : String :=
  String.mk (s.data.map fun c => if c.isAlphanum then c.toLower else '_')

/-- Decimal digit character (codes 48–57). -/
def digitChar10 (d : Nat) : Char :=
  Char.ofNat (48 + d)

/-- Decimal rendering of a positive number, most significant digit first. -/
def natSuffix (n : Nat) : String :=
  String.mk (((Nat.digits 10 n).map digitChar10).reverse)

/-- The n-th candidate identifier tried during disambiguation: the preferred
identifier itself first, then `base_2`, `base_3`, …. -/
def candidateId (base : String) : Nat → String
  | 0 => base
  | Nat.succ k => base ++ "_" ++ natSuffix (k + 2)

/-- Modelled from the spec (continued from `slugify`): disambiguation picks
the first candidate — preferred identifier, then numeric `_2`, `_3`, …
suffixes — that is not already among `current_ids`.  Searching the first
`current_ids.length + 2` candidates always finds one
(`generate_entity_id_not_mem` below); the fallback arm is unreachable. -/
def generate_entity_id (name : String) (current_ids : List String) : String :=
  match (List.range (current_ids.length + 2)).find?
      (fun n => !(current_ids.contains (candidateId ("dreamscreen." ++ slugify name) n))) with
  | some n => candidateId ("dreamscreen." ++ slugify name) n
  | none => "dreamscreen." ++ slugify name

/-- The `DreamScreenEntity` adapter: a reference to the device handle, the
generated `entity_id`, and the `_name` field assigned in `__init__` from the
device's name at construction time. -/
structure DreamScreenEntity where
  device : Device
  entity_id : String
  _name : String
  deriving DecidableEq, Repr

/-- `DreamScreenEntity.__init__`: stores the device reference, generates the
entity id against the identifiers already assigned in the batch, and caches
the device name into `_name`. -/
def DreamScreenEntity.init (device : Device) (current_ids : List String) :
    DreamScreenEntity :=
  { device := device
    entity_id := generate_entity_id device.name current_ids
    _name := device.name }

/-- The `name` property: returns `self._name`. -/
def DreamScreenEntity.name (e : DreamScreenEntity) : String :=
  e._name

/-- The `state` property: `"on" if self.device.mode else 'off'` — an integer
is truthy in Python exactly when it is non-zero. -/
def DreamScreenEntity.state (e : DreamScreenEntity) : String :=
  if e.device.mode = 0 then "off" else "on"

/-- The `assumed_state` property: returns the literal `'off'`. -/
def DreamScreenEntity.assumed_state (_ : DreamScreenEntity) : String :=
  "off"

/-- The `state_attributes` property: the base dictionary of group name/number,
device mode, brightness, ambient color (formatted
`"#" + ambient_color.hex().upper()`) and ambient scene, extended — only for
the two HDMI-capable variants — with `selected_hdmi` (the input name selected
by `hdmi_input` when it is 0, 1 or 2, else the initial `None`), `hdmi_input`,
the three input names, and `hdmi_active_channels`. -/
def DreamScreenEntity.state_attributes (e : DreamScreenEntity) :
    List (String × AttrValue) :=
  let base : List (String × AttrValue) :=
    [("group_name", .s e.device.group_name),
     ("group_number", .i e.device.group_number),
     ("device_mode", .i e.device.mode),
     ("brightness", .i e.device.brightness),
     ("ambient_color", .s ("#" ++ bytesHexUpper e.device.ambient_color)),
     ("ambient_scene", .i e.device.ambient_scene)]
  if hdmiCapable e.device then
    let selected_hdmi : AttrValue :=
      if e.device.hdmi_input = 0 then .s e.device.hdmi_input_1_name
      else if e.device.hdmi_input = 1 then .s e.device.hdmi_input_2_name
      else if e.device.hdmi_input = 2 then .s e.device.hdmi_input_3_name
      else .null
    base ++
      [("selected_hdmi", selected_hdmi),
       ("hdmi_input", .i e.device.hdmi_input),
       ("hdmi_input_1_name", .s e.device.hdmi_input_1_name),
       ("hdmi_input_2_name", .s e.device.hdmi_input_2_name),
       ("hdmi_input_3_name", .s e.device.hdmi_input_3_name),
       ("hdmi_active_channels", .i e.device.hdmi_active_channels)]
  else base

/-- A service call: the service name, the `entity_id` target list, and the
one parameter value (already keyed by the service's `param` name). -/
structure ServiceCall where
  service : ServiceName
  entity_id : List String
  param : ParamValue
  deriving DecidableEq, Repr

/-- Outcome of one service invocation: whether schema validation rejected it,
the registered entities afterwards, and the ids of the entities whose state
refresh (`async_update_ha_state(True)`) was triggered. -/
structure CallOutcome where
  validationError : Bool
  entities : List DreamScreenEntity
  refreshed : List String
  deriving DecidableEq, Repr

/-- The body of the dispatcher loop for one targeted entity:
`setattr(entity.device, attribute, attribute_value)` for the service's table
entry. -/
def applyService (service : ServiceName) (value : ParamValue)
    (e : DreamScreenEntity) : DreamScreenEntity :=
  { e with device := setDeviceAttribute e.device service value }

/-- `async_handle_dreamscreen_services` after target resolution: every
registered entity whose id is among the call's targets gets the attribute
write; a refresh is scheduled for exactly those entities
(`component.async_extract_from_service` silently drops ids with no matching
registered entity). -/
def dispatch (entities : List DreamScreenEntity) (targets : List String)
    (service : ServiceName) (value : ParamValue) :
    List DreamScreenEntity × List String :=
  (entities.map fun e =>
     if e.entity_id ∈ targets then applyService service value e else e,
   ((entities.filter fun e => e.entity_id ∈ targets).map fun e => e.entity_id))

/-- One full service invocation.  Modelled from the spec for the framework
part: the platform's service registry applies the schema registered in
`async_setup` (`hass.services.async_register(..., schema=schema)`) before the
handler runs — "a request failing validation is rejected before any device is
touched (fails with ValidationError)" (spec section 4.1).  The schemas and the
handler itself are embedded from the source. -/
def handleServiceCall (entities : List DreamScreenEntity) (call : ServiceCall) :
    CallOutcome :=
  if validateParam call.service call.param then
    let r := dispatch entities call.entity_id call.service call.param
    { validationError := false, entities := r.1, refreshed := r.2 }
  else
    { validationError := true, entities := entities, refreshed := [] }

/-- The discovery loop of `async_setup`: one adapter per discovered device,
each constructed against the list of entity ids generated so far, which then
grows by the new adapter's id. -/
def setupEntities : List Device → List String → List DreamScreenEntity
  | [], _ => []
  | d :: rest, ids =>
    let e := DreamScreenEntity.init d ids
    e :: setupEntities rest (ids ++ [e.entity_id])

/-- A sample HDMI-capable device handle (variant `DreamScreenHD`) whose
`hdmi_input` reports the out-of-range value 3. -/
def devA : Device :=
  { variant := .hd
    name := "tv"
    group_name := "g"
    group_number := 1
    mode := 2
    brightness := 50
    ambient_scene := 0
    ambient_color := [0, 0, 0]
    hdmi_input := 3
    hdmi_input_1_name := "one"
    hdmi_input_2_name := "two"
    hdmi_input_3_name := "three"
    hdmi_active_channels := 1 }

/-- A sample non-HDMI-capable device handle (variant `DreamScreenSideKick`). -/
def devSide : Device :=
  { variant := .sideKick
    name := "kick"
    group_name := "g"
    group_number := 1
    mode := 0
    brightness := 40
    ambient_scene := 2
    ambient_color := [255, 0, 16]
    hdmi_input := 0
    hdmi_input_1_name := ""
    hdmi_input_2_name := ""
    hdmi_input_3_name := ""
    hdmi_active_channels := 0 }

/-- Adapter wrapping `devA`, constructed with no previously assigned ids. -/
def entA : DreamScreenEntity :=
  DreamScreenEntity.init devA []

/-- Adapter wrapping `devSide`, constructed with no previously assigned ids. -/
def entSide : DreamScreenEntity :=
  DreamScreenEntity.init devSide []

end DreamScreen

namespace DreamScreen

/-- Claim C9: for every device handle, in every state, the adapter's
`assumed_state` property returns the string `'off'` unconditionally. -/
theorem assumed_state_always_off (e : DreamScreenEntity) :
    e.assumed_state = "off" :=
  rfl

/-- Claim C2: after `set_mode` writes a value in `[0, 3]` onto the device's
`mode` attribute, the entity's `state` property reads `"on"` iff the value is
non-zero. -/
theorem set_mode_state_on_iff (e : DreamScreenEntity) (m : Int)
    (h0 : 0 ≤ m) (h3 : m ≤ 3) :
    (applyService .set_mode (.int m) e).state = "on" ↔ m ≠ 0 := by
  by_cases hm : m = 0 <;>
    simp [applyService, setDeviceAttribute, DreamScreenEntity.state, hm]

/-- Witness for C2: mode value 2 satisfies the bounds and yields state
`"on"` (with 2 ≠ 0). -/
theorem set_mode_state_on_iff_witness :
    ((0 : Int) ≤ 2 ∧ (2 : Int) ≤ 3) ∧
      ((applyService .set_mode (.int 2) entA).state = "on" ↔ (2 : Int) ≠ 0) :=
  ⟨by decide, set_mode_state_on_iff entA 2 (by decide) (by decide)⟩

/-- Claim C3 counterexample: `name` is cached at construction.  After the
wrapped device handle's name changes from `"tv"` to `"renamed"`, the adapter's
`name` property still returns `"tv"`, not the new name. -/
theorem name_reads_stale_after_rename :
    ({ entA with device := { entA.device with name := "renamed" } } :
        DreamScreenEntity).device.name = "renamed" ∧
      ({ entA with device := { entA.device with name := "renamed" } } :
          DreamScreenEntity).name = "tv" ∧
      "tv" ≠ "renamed" := by
  decide

/-- Claim C3 (amended): the adapter's `name` property returns the device name
cached into `_name` at construction time; a later change of the device
handle's name is not reflected. -/
theorem name_is_construction_cache (d d' : Device) (ids : List String) :
    ({ DreamScreenEntity.init d ids with device := d' } :
        DreamScreenEntity).name = d.name :=
  rfl

/-- Claim C10: for each of the five services, the dispatcher's write changes
exactly the one device attribute named in `SERVICE_TO_ATTRIBUTE` and leaves
every other attribute of the target's device handle unchanged; no capability
check restricts the write (the `set_hdmi_source` equation holds for every
variant, including non-HDMI-capable ones, and keeps `variant` itself
unchanged). -/
theorem service_writes_exactly_named_attribute (e : DreamScreenEntity) :
    (∀ n : Int, (applyService .set_mode (.int n) e).device =
       { e.device with mode := n }) ∧
    (∀ n : Int, (applyService .set_hdmi_source (.int n) e).device =
       { e.device with hdmi_input := n }) ∧
    (∀ n : Int, (applyService .set_brightness (.int n) e).device =
       { e.device with brightness := n }) ∧
    (∀ n : Int, (applyService .set_ambient_scene (.int n) e).device =
       { e.device with ambient_scene := n }) ∧
    (∀ s : String, (applyService .set_ambient_color (.str s) e).device =
       match deviceColorOfString s with
       | some bs => { e.device with ambient_color := bs }
       | none => e.device) := by
  refine ⟨fun n => rfl, fun n => rfl, fun n => rfl, fun n => rfl, fun s => ?_⟩
  show setDeviceAttribute e.device .set_ambient_color (.str s) = _
  cases h : deviceColorOfString s <;> simp [setDeviceAttribute, h]

/-- Claim C6: the attribute snapshot of an adapter wrapping a device handle
whose variant is not HDMI-capable never has any of the six HDMI keys, in
every state of the device. -/
theorem non_hdmi_attrs_have_no_hdmi_keys (e : DreamScreenEntity)
    (h : hdmiCapable e.device = false) :
    ∀ k ∈ (["hdmi_input", "selected_hdmi", "hdmi_input_1_name",
            "hdmi_input_2_name", "hdmi_input_3_name",
            "hdmi_active_channels"] : List String),
      (e.state_attributes.map Prod.fst).contains k = false := by
  intro k hk
  unfold DreamScreenEntity.state_attributes
  rw [h]
  fin_cases hk <;> rfl

/-- Witness for C6: the sideKick adapter is not HDMI-capable and its snapshot
has none of the six HDMI keys. -/
theorem non_hdmi_attrs_have_no_hdmi_keys_witness :
    hdmiCapable entSide.device = false ∧
      ∀ k ∈ (["hdmi_input", "selected_hdmi", "hdmi_input_1_name",
              "hdmi_input_2_name", "hdmi_input_3_name",
              "hdmi_active_channels"] : List String),
        (entSide.state_attributes.map Prod.fst).contains k = false :=
  ⟨by decide, non_hdmi_attrs_have_no_hdmi_keys entSide (by decide)⟩

/-- Mapping a function that only fires on elements satisfying `p` over a list
none of whose elements satisfies `p` is the identity. -/
theorem map_ite_id {α : Type} (p : α → Prop) [DecidablePred p] (f : α → α) :
    ∀ l : List α, (∀ e ∈ l, ¬ p e) →
      l.map (fun e => if p e then f e else e) = l
  | [], _ => rfl
  | a :: l, h => by
    simp only [List.map_cons]
    rw [if_neg (h a (List.mem_cons_self a l)),
      map_ite_id p f l (fun e he => h e (List.mem_cons_of_mem a he))]

/-- Claim C8: a valid service request whose target ids resolve to zero
registered adapters completes without a validation error, leaves every
registered adapter (hence every device attribute) unchanged, and triggers no
state refresh. -/
theorem no_resolved_targets_noop (entities : List DreamScreenEntity)
    (call : ServiceCall)
    (hvalid : validateParam call.service call.param = true)
    (hnone : ∀ e ∈ entities, e.entity_id ∉ call.entity_id) :
    handleServiceCall entities call =
      { validationError := false, entities := entities, refreshed := [] } := by
  unfold handleServiceCall
  rw [hvalid]
  unfold dispatch
  simp only [if_true]
  have hmap := map_ite_id (fun e : DreamScreenEntity => e.entity_id ∈ call.entity_id)
    (applyService call.service call.param) entities hnone
  have hfilter : (entities.filter fun e => e.entity_id ∈ call.entity_id) = [] := by
    rw [List.filter_eq_nil_iff]
    intro e he
    simpa using hnone e he
  rw [hmap, hfilter]
  rfl

/-- Witness for C8: a valid `set_mode` call targeting only an unregistered id
is a no-op on the single registered adapter. -/
theorem no_resolved_targets_noop_witness :
    (validateParam ServiceName.set_mode (.int 1) = true ∧
        ∀ e ∈ [entA], e.entity_id ∉ ["dreamscreen.unknown"]) ∧
      handleServiceCall [entA]
          { service := .set_mode, entity_id := ["dreamscreen.unknown"],
            param := .int 1 } =
        { validationError := false, entities := [entA], refreshed := [] } :=
  ⟨by decide,
    no_resolved_targets_noop [entA]
      { service := .set_mode, entity_id := ["dreamscreen.unknown"],
        param := .int 1 }
      (by decide) (by decide)⟩

/-- Claim C1: for each of the five services, a request whose parameter fails
its validation rule (mode outside 0–3, source outside 0–2, brightness outside
0–100, scene outside 0–8, color not matching the hex pattern) is rejected
with a validation error and no attribute of any registered device handle is
modified (the entity list of the outcome is the input list, untouched, and no
refresh is triggered). -/
theorem invalid_request_rejected_untouched (entities : List DreamScreenEntity)
    (targets : List String) :
    (∀ n : Int, n < 0 ∨ 3 < n →
       handleServiceCall entities
           { service := .set_mode, entity_id := targets, param := .int n } =
         { validationError := true, entities := entities, refreshed := [] }) ∧
    (∀ n : Int, n < 0 ∨ 2 < n →
       handleServiceCall entities
           { service := .set_hdmi_source, entity_id := targets, param := .int n } =
         { validationError := true, entities := entities, refreshed := [] }) ∧
    (∀ n : Int, n < 0 ∨ 100 < n →
       handleServiceCall entities
           { service := .set_brightness, entity_id := targets, param := .int n } =
         { validationError := true, entities := entities, refreshed := [] }) ∧
    (∀ n : Int, n < 0 ∨ 8 < n →
       handleServiceCall entities
           { service := .set_ambient_scene, entity_id := targets, param := .int n } =
         { validationError := true, entities := entities, refreshed := [] }) ∧
    (∀ s : String, colorMatches s = false →
       handleServiceCall entities
           { service := .set_ambient_color, entity_id := targets, param := .str s } =
         { validationError := true, entities := entities, refreshed := [] }) := by
  refine ⟨fun n hn => ?_, fun n hn => ?_, fun n hn => ?_, fun n hn => ?_,
    fun s hs => ?_⟩ <;>
    unfold handleServiceCall
  case _ =>
    have hv : validateParam .set_mode (.int n) = false := by
      simp only [validateParam, decide_eq_false_iff_not]
      omega
    rw [hv]
    rfl
  case _ =>
    have hv : validateParam .set_hdmi_source (.int n) = false := by
      simp only [validateParam, decide_eq_false_iff_not]
      omega
    rw [hv]
    rfl
  case _ =>
    have hv : validateParam .set_brightness (.int n) = false := by
      simp only [validateParam, decide_eq_false_iff_not]
      omega
    rw [hv]
    rfl
  case _ =>
    have hv : validateParam .set_ambient_scene (.int n) = false := by
      simp only [validateParam, decide_eq_false_iff_not]
      omega
    rw [hv]
    rfl
  case _ =>
    have hv : validateParam .set_ambient_color (.str s) = false := hs
    rw [hv]
    rfl

/-- Witness for C1: mode value 4 is outside 0–3 and the request is rejected
with the registered adapter untouched. -/
theorem invalid_request_rejected_untouched_witness :
    ((4 : Int) < 0 ∨ (3 : Int) < 4) ∧
      handleServiceCall [entA]
          { service := .set_mode, entity_id := ["dreamscreen.tv"],
            param := .int 4 } =
        { validationError := true, entities := [entA], refreshed := [] } :=
  ⟨by decide,
    (invalid_request_rejected_untouched [entA] ["dreamscreen.tv"]).1 4
      (by decide)⟩

end DreamScreen

namespace DreamScreen

/-- Claim C4 counterexample: on the HDMI-capable sample device whose
`hdmi_input` is 3 (outside 0–2), the snapshot still carries the
`selected_hdmi` key — present with the Python `None` value, not absent. -/
theorem selected_hdmi_key_present_out_of_range :
    devA.hdmi_input = 3 ∧ hdmiCapable devA = true ∧
      (entA.state_attributes.map Prod.fst).contains "selected_hdmi" = true ∧
      entA.state_attributes.lookup "selected_hdmi" = some .null := by
  decide

/-- Claim C4 (amended): for an HDMI-capable device, `selected_hdmi` is always
present in the snapshot: bound to the matching `hdmi_input_{1,2,3}_name` when
`hdmi_input` is 0, 1 or 2, and bound to Python `None` (not absent) when
`hdmi_input` is outside 0–2. -/
theorem selected_hdmi_resolution (e : DreamScreenEntity)
    (hcap : hdmiCapable e.device = true) :
    e.state_attributes.lookup "selected_hdmi" =
      some (if e.device.hdmi_input = 0 then .s e.device.hdmi_input_1_name
            else if e.device.hdmi_input = 1 then .s e.device.hdmi_input_2_name
            else if e.device.hdmi_input = 2 then .s e.device.hdmi_input_3_name
            else .null) := by
  unfold DreamScreenEntity.state_attributes
  rw [hcap]
  rfl

/-- Witness for C4 (amended): on the sample HDMI adapter (with `hdmi_input`
3), `selected_hdmi` resolves to `None`. -/
theorem selected_hdmi_resolution_witness :
    hdmiCapable entA.device = true ∧
      entA.state_attributes.lookup "selected_hdmi" =
        some (if entA.device.hdmi_input = 0 then .s entA.device.hdmi_input_1_name
              else if entA.device.hdmi_input = 1 then .s entA.device.hdmi_input_2_name
              else if entA.device.hdmi_input = 2 then .s entA.device.hdmi_input_3_name
              else .null) :=
  ⟨by decide, selected_hdmi_resolution entA (by decide)⟩

end DreamScreen

namespace DreamScreen

/-- A hex digit character is not the newline character. -/
theorem isHexDigit_ne_newline (c : Char) (hc : isHexDigit c = true) :
    c ≠ Char.ofNat 10 := by
  intro heq
  rw [heq] at hc
  exact absurd hc (by decide)

/-- Parsing then re-rendering one hex digit character uppercases it: if `c`
is a hex digit, `hexDigitVal c` succeeds with a value below 16 whose
`hexDigitUpper` rendering is `c.toUpper`. -/
theorem hexChar_roundtrip (c : Char) (hc : isHexDigit c = true) :
    ∃ h, hexDigitVal c = some h ∧ h < 16 ∧ hexDigitUpper h = c.toUpper := by
  have hlt : c.toNat < 128 := by
    simp only [isHexDigit, Bool.or_eq_true, Bool.and_eq_true,
      decide_eq_true_eq] at hc
    omega
  have key : ∀ n, n < 128 → isHexDigit (Char.ofNat n) = true →
      ∃ h, h < 16 ∧ hexDigitVal (Char.ofNat n) = some h ∧
        hexDigitUpper h = (Char.ofNat n).toUpper := by decide
  have hc' : isHexDigit (Char.ofNat c.toNat) = true := by
    rw [Char.ofNat_toNat]; exact hc
  obtain ⟨h, hh16, hval, hup⟩ := key c.toNat hlt hc'
  rw [Char.ofNat_toNat] at hval hup
  exact ⟨h, hval, hh16, hup⟩

/-- Rendering the byte assembled from two hex digit values prints the two
uppercase digit characters. -/
theorem byteHexUpper_assemble (hi lo : Nat) (hhi : hi < 16) (hlo : lo < 16) :
    byteHexUpper (hi * 16 + lo) = String.mk [hexDigitUpper hi, hexDigitUpper lo] := by
  unfold byteHexUpper
  rw [show (hi * 16 + lo) / 16 % 16 = hi by omega,
    show (hi * 16 + lo) % 16 = lo by omega]

end DreamScreen

namespace DreamScreen

/-- Claim C5: for every input matching the color pattern — 3- or 6-digit
form, any letter case — after `set_ambient_color` the adapter's snapshot has
`ambient_color` equal to the input normalized to the uppercase 6-digit form
`#RRGGBB`: the 6-digit form is uppercased in place, the 3-digit short form
expands each digit before uppercasing. -/
theorem ambient_color_normalized_uppercase (e : DreamScreenEntity) :
    (∀ (c1 c2 c3 : Char) (s : String), s.data = ['#', c1, c2, c3] →
       isHexDigit c1 = true → isHexDigit c2 = true → isHexDigit c3 = true →
       colorMatches s = true ∧
         (applyService .set_ambient_color (.str s) e).state_attributes.lookup
             "ambient_color" =
           some (.s (String.mk ['#', c1.toUpper, c1.toUpper, c2.toUpper,
             c2.toUpper, c3.toUpper, c3.toUpper]))) ∧
    (∀ (c1 c2 c3 c4 c5 c6 : Char) (s : String),
       s.data = ['#', c1, c2, c3, c4, c5, c6] →
       isHexDigit c1 = true → isHexDigit c2 = true → isHexDigit c3 = true →
       isHexDigit c4 = true → isHexDigit c5 = true → isHexDigit c6 = true →
       colorMatches s = true ∧
         (applyService .set_ambient_color (.str s) e).state_attributes.lookup
             "ambient_color" =
           some (.s (String.mk (s.data.map Char.toUpper)))) := by
  constructor
  · intro c1 c2 c3 s hs h1 h2 h3
    obtain ⟨v1, hv1, hb1, hu1⟩ := hexChar_roundtrip c1 h1
    obtain ⟨v2, hv2, hb2, hu2⟩ := hexChar_roundtrip c2 h2
    obtain ⟨v3, hv3, hb3, hu3⟩ := hexChar_roundtrip c3 h3
    have hmatch : colorMatches s = true := by
      unfold colorMatches
      rw [hs]
      rw [if_neg (by
        simp only [List.getLast?_cons_cons, List.getLast?_singleton,
          Option.some.injEq]
        exact isHexDigit_ne_newline c3 h3)]
      simp [h1, h2, h3]
    refine ⟨hmatch, ?_⟩
    have hparse : deviceColorOfString s =
        some [v1 * 16 + v1, v2 * 16 + v2, v3 * 16 + v3] := by
      unfold deviceColorOfString
      rw [hs]
      show decodeColorDigits [c1, c2, c3] = _
      simp [decodeColorDigits, hv1, hv2, hv3]
    have hdev : (applyService .set_ambient_color (.str s) e).device =
        { e.device with
          ambient_color := [v1 * 16 + v1, v2 * 16 + v2, v3 * 16 + v3] } := by
      show setDeviceAttribute e.device .set_ambient_color (.str s) = _
      simp [setDeviceAttribute, hparse]
    have hfmt : bytesHexUpper [v1 * 16 + v1, v2 * 16 + v2, v3 * 16 + v3] =
        String.mk [c1.toUpper, c1.toUpper, c2.toUpper, c2.toUpper,
          c3.toUpper, c3.toUpper] := by
      simp only [bytesHexUpper]
      rw [byteHexUpper_assemble v1 v1 hb1 hb1,
        byteHexUpper_assemble v2 v2 hb2 hb2,
        byteHexUpper_assemble v3 v3 hb3 hb3, hu1, hu2, hu3]
      rfl
    cases hcap : hdmiCapable (applyService .set_ambient_color (.str s) e).device <;>
      (unfold DreamScreenEntity.state_attributes
       rw [hcap, hdev])
    · show some (AttrValue.s ("#" ++ bytesHexUpper _)) = _
      rw [hfmt]
      rfl
    · show some (AttrValue.s ("#" ++ bytesHexUpper _)) = _
      rw [hfmt]
      rfl
  · intro c1 c2 c3 c4 c5 c6 s hs h1 h2 h3 h4 h5 h6
    obtain ⟨v1, hv1, hb1, hu1⟩ := hexChar_roundtrip c1 h1
    obtain ⟨v2, hv2, hb2, hu2⟩ := hexChar_roundtrip c2 h2
    obtain ⟨v3, hv3, hb3, hu3⟩ := hexChar_roundtrip c3 h3
    obtain ⟨v4, hv4, hb4, hu4⟩ := hexChar_roundtrip c4 h4
    obtain ⟨v5, hv5, hb5, hu5⟩ := hexChar_roundtrip c5 h5
    obtain ⟨v6, hv6, hb6, hu6⟩ := hexChar_roundtrip c6 h6
    have hmatch : colorMatches s = true := by
      unfold colorMatches
      rw [hs]
      rw [if_neg (by
        simp only [List.getLast?_cons_cons, List.getLast?_singleton,
          Option.some.injEq]
        exact isHexDigit_ne_newline c6 h6)]
      simp [h1, h2, h3, h4, h5, h6]
    refine ⟨hmatch, ?_⟩
    have hparse : deviceColorOfString s =
        some [v1 * 16 + v2, v3 * 16 + v4, v5 * 16 + v6] := by
      unfold deviceColorOfString
      rw [hs]
      show parseHexPairs [c1, c2, c3, c4, c5, c6] = _
      simp [parseHexPairs, hv1, hv2, hv3, hv4, hv5, hv6]
    have hdev : (applyService .set_ambient_color (.str s) e).device =
        { e.device with
          ambient_color := [v1 * 16 + v2, v3 * 16 + v4, v5 * 16 + v6] } := by
      show setDeviceAttribute e.device .set_ambient_color (.str s) = _
      simp [setDeviceAttribute, hparse]
    have hfmt : bytesHexUpper [v1 * 16 + v2, v3 * 16 + v4, v5 * 16 + v6] =
        String.mk [c1.toUpper, c2.toUpper, c3.toUpper, c4.toUpper,
          c5.toUpper, c6.toUpper] := by
      simp only [bytesHexUpper]
      rw [byteHexUpper_assemble v1 v2 hb1 hb2,
        byteHexUpper_assemble v3 v4 hb3 hb4,
        byteHexUpper_assemble v5 v6 hb5 hb6, hu1, hu2, hu3, hu4, hu5, hu6]
      rfl
    rw [hs]
    cases hcap : hdmiCapable (applyService .set_ambient_color (.str s) e).device <;>
      (unfold DreamScreenEntity.state_attributes
       rw [hcap, hdev])
    · show some (AttrValue.s ("#" ++ bytesHexUpper _)) = _
      rw [hfmt]
      rfl
    · show some (AttrValue.s ("#" ++ bytesHexUpper _)) = _
      rw [hfmt]
      rfl

/-- Witness for C5: the short form `"#abc"` normalizes to `"#AABBCC"` and the
mixed-case 6-digit form `"#a1B2c3"` to `"#A1B2C3"`. -/
theorem ambient_color_normalized_uppercase_witness :
    (("#abc" : String).data = ['#', 'a', 'b', 'c'] ∧ isHexDigit 'a' = true ∧
        isHexDigit 'b' = true ∧ isHexDigit 'c' = true) ∧
      (colorMatches "#abc" = true ∧
        (applyService .set_ambient_color (.str "#abc")
              entSide).state_attributes.lookup "ambient_color" =
          some (.s (String.mk ['#', 'a'.toUpper, 'a'.toUpper, 'b'.toUpper,
            'b'.toUpper, 'c'.toUpper, 'c'.toUpper]))) ∧
      (colorMatches "#a1B2c3" = true ∧
        (applyService .set_ambient_color (.str "#a1B2c3")
              entSide).state_attributes.lookup "ambient_color" =
          some (.s (String.mk (("#a1B2c3" : String).data.map Char.toUpper)))) :=
  ⟨by decide,
    (ambient_color_normalized_uppercase entSide).1 'a' 'b' 'c' "#abc"
      (by decide) (by decide) (by decide) (by decide),
    (ambient_color_normalized_uppercase entSide).2 'a' '1' 'B' '2' 'c' '3'
      "#a1B2c3" (by decide) (by decide) (by decide) (by decide) (by decide)
      (by decide) (by decide)⟩

end DreamScreen

namespace DreamScreen

/-- Decimal digit rendering is injective on lists of digit values. -/
theorem map_digitChar10_inj :
    ∀ l1 l2 : List Nat, (∀ d ∈ l1, d < 10) → (∀ d ∈ l2, d < 10) →
      l1.map digitChar10 = l2.map digitChar10 → l1 = l2
  | [], [], _, _, _ => rfl
  | [], _ :: _, _, _, h => by simp at h
  | _ :: _, [], _, _, h => by simp at h
  | a :: l1, b :: l2, ha, hb, h => by
    simp only [List.map_cons, List.cons.injEq] at h
    have key : ∀ x, x < 10 → ∀ y, y < 10 → digitChar10 x = digitChar10 y → x = y := by
      decide
    have hd : a = b :=
      key a (ha a (List.mem_cons_self a l1)) b (hb b (List.mem_cons_self b l2)) h.1
    have ht := map_digitChar10_inj l1 l2
      (fun d hd' => ha d (List.mem_cons_of_mem a hd'))
      (fun d hd' => hb d (List.mem_cons_of_mem b hd')) h.2
    rw [hd, ht]

/-- The decimal rendering of numbers is injective. -/
theorem natSuffix_inj (m n : Nat) (h : natSuffix m = natSuffix n) : m = n := by
  unfold natSuffix at h
  have hdata : ((Nat.digits 10 m).map digitChar10).reverse =
      ((Nat.digits 10 n).map digitChar10).reverse := congrArg String.data h
  have hrev := List.reverse_injective hdata
  have hdig := map_digitChar10_inj _ _
    (fun d hd => Nat.digits_lt_base (by norm_num) hd)
    (fun d hd => Nat.digits_lt_base (by norm_num) hd) hrev
  calc m = Nat.ofDigits 10 (Nat.digits 10 m) := (Nat.ofDigits_digits 10 m).symm
    _ = Nat.ofDigits 10 (Nat.digits 10 n) := by rw [hdig]
    _ = n := Nat.ofDigits_digits 10 n

/-- The decimal rendering of a positive number is non-empty. -/
theorem natSuffix_length_pos (n : Nat) (hn : n ≠ 0) : 0 < (natSuffix n).length := by
  show 0 < (((Nat.digits 10 n).map digitChar10).reverse).length
  rw [List.length_reverse, List.length_map]
  exact List.length_pos.mpr (Nat.digits_ne_nil_iff_ne_zero.mpr hn)

/-- Distinct disambiguation indices yield distinct candidate identifiers. -/
theorem candidateId_inj (base : String) :
    ∀ m n : Nat, candidateId base m = candidateId base n → m = n
  | 0, 0, _ => rfl
  | 0, Nat.succ k, h => by
    exfalso
    have hlen := congrArg String.length h
    simp only [candidateId, String.length_append] at hlen
    have hp := natSuffix_length_pos (k + 2) (by omega)
    have hu : ("_" : String).length = 1 := rfl
    omega
  | Nat.succ k, 0, h => by
    exfalso
    have hlen := congrArg String.length h
    simp only [candidateId, String.length_append] at hlen
    have hp := natSuffix_length_pos (k + 2) (by omega)
    have hu : ("_" : String).length = 1 := rfl
    omega
  | Nat.succ j, Nat.succ k, h => by
    simp only [candidateId] at h
    have hdata := congrArg String.data h
    rw [String.data_append, String.data_append, String.data_append,
      String.data_append] at hdata
    have htail := List.append_cancel_left hdata
    have hsuffix : natSuffix (j + 2) = natSuffix (k + 2) := String.ext htail
    have := natSuffix_inj (j + 2) (k + 2) hsuffix
    omega

/-- The generated identifier is never one of the already assigned ids: the
disambiguation loop always finds a fresh candidate among the first
`current_ids.length + 2` (pigeonhole on the injectivity of `candidateId`). -/
theorem generate_entity_id_not_mem (name : String) (current_ids : List String) :
    generate_entity_id name current_ids ∉ current_ids := by
  unfold generate_entity_id
  cases hfind : (List.range (current_ids.length + 2)).find?
      (fun n => !(current_ids.contains
        (candidateId ("dreamscreen." ++ slugify name) n))) with
  | some n =>
    have hp := List.find?_some hfind
    simp only [Bool.not_eq_true'] at hp
    intro hmem
    have hmem' : candidateId ("dreamscreen." ++ slugify name) n ∈ current_ids := hmem
    exact absurd hmem' (by simpa using hp)
  | none =>
    exfalso
    have hall := List.find?_eq_none.mp hfind
    have hmem : ∀ n ∈ List.range (current_ids.length + 2),
        candidateId ("dreamscreen." ++ slugify name) n ∈ current_ids := by
      intro n hn
      have hx := hall n hn
      simp only [Bool.not_eq_true, Bool.not_eq_false] at hx
      simpa using hx
    have hsub : ((List.range (current_ids.length + 2)).map
        (candidateId ("dreamscreen." ++ slugify name))) ⊆ current_ids := by
      intro x hx
      obtain ⟨n, hn, rfl⟩ := List.mem_map.mp hx
      exact hmem n hn
    have hnodup : ((List.range (current_ids.length + 2)).map
        (candidateId ("dreamscreen." ++ slugify name))).Nodup :=
      List.Nodup.map_on
        (fun x _ y _ hxy => candidateId_inj ("dreamscreen." ++ slugify name) x y hxy)
        (List.nodup_range _)
    have hle := (hnodup.subperm hsub).length_le
    simp only [List.length_map, List.length_range] at hle
    omega

/-- Each adapter built by the discovery loop carries an id fresh relative to
the ids accumulated before it, and the whole batch is collision-free. -/
theorem setupEntities_fresh :
    ∀ (devices : List Device) (ids : List String),
      ((setupEntities devices ids).map (fun e => e.entity_id)).Nodup ∧
        ∀ e ∈ setupEntities devices ids, e.entity_id ∉ ids
  | [], _ => ⟨List.nodup_nil, by intro e he; simp [setupEntities] at he⟩
  | d :: rest, ids => by
    obtain ⟨ihnodup, ihfresh⟩ :=
      setupEntities_fresh rest (ids ++ [(DreamScreenEntity.init d ids).entity_id])
    constructor
    · simp only [setupEntities, List.map_cons, List.nodup_cons]
      refine ⟨?_, ihnodup⟩
      intro hmem
      obtain ⟨e, he, heq⟩ := List.mem_map.mp hmem
      exact ihfresh e he (by simp [heq])
    · intro e he
      simp only [setupEntities, List.mem_cons] at he
      cases he with
      | inl h => rw [h]; exact generate_entity_id_not_mem d.name ids
      | inr h =>
        intro hmem
        exact ihfresh e h (List.mem_append_left _ hmem)

/-- Claim C7: for every sequence of discovered devices — identical advertised
names included — the setup loop generates pairwise-distinct entity
identifiers, each one computed against the identifiers already assigned
earlier in the batch. -/
theorem setup_generates_distinct_entity_ids (devices : List Device) :
    ((setupEntities devices []).map (fun e => e.entity_id)).Nodup :=
  (setupEntities_fresh devices []).1

end DreamScreen
